import Mathlib

/-!
Verification of the TRAC protobuf-to-Python code generator
(`dev/codegen/generator.py`): a shallow embedding of its type and default
resolution, source-location filtering, documentation-comment formatting, enum
emission and package assembly, together with theorems about the behavior the
design document ascribes to it.

Python string, list and `pathlib` operations are realized by explicit
structural functions on character lists so that every definition evaluates by
kernel reduction.  Template strings instantiated in the source through ordered
`str.replace` chains are realized by direct concatenation, which agrees with
the source because each replacement is a single pass whose replacement text is
never rescanned.  `ECodeGeneration` raises and Python runtime errors are
modelled with `Except.error`.
-/

deriving instance DecidableEq for Except

/-- Tests that the first character list is a prefix of the second. -/
def charPrefixOf : List Char → List Char → Bool
  | [], _ => true
  | _ :: _, [] => false
  | a :: as, b :: bs => a == b && charPrefixOf as bs

/-- Python `s.startswith(pre)`. -/
def strStartsWith (s pre : String) : Bool := charPrefixOf pre.data s.data

/-- Python `s.endswith(suf)`. -/
def strEndsWith (s suf : String) : Bool := charPrefixOf suf.data.reverse s.data.reverse

/-- Python `s[n:]`. -/
def strDrop (s : String) (n : Nat) : String := String.mk (s.data.drop n)

/-- Python `s[:-1]`. -/
def strDropLast (s : String) : String := String.mk s.data.dropLast

/-- Python `s.strip()` on ASCII whitespace. -/
def strTrim (s : String) : String :=
  String.mk (((s.data.dropWhile Char.isWhitespace).reverse.dropWhile Char.isWhitespace).reverse)

/-- Python `s.lstrip()` on ASCII whitespace. -/
def strTrimLeft (s : String) : String := String.mk (s.data.dropWhile Char.isWhitespace)

/-- Helper for `splitOnChar`, accumulating the current segment in reverse. -/
def splitOnCharAux (c : Char) : List Char → List Char → List (List Char)
  | [], acc => [acc.reverse]
  | x :: xs, acc =>
    if x == c then acc.reverse :: splitOnCharAux c xs [] else splitOnCharAux c xs (x :: acc)

/-- Python `s.split(c)` for a one-character separator. -/
def splitOnChar (c : Char) (s : String) : List String :=
  (splitOnCharAux c s.data []).map String.mk

/-- Python `sep.join(parts)`. -/
def joinWith (sep : String) : List String → String
  | [] => ""
  | [x] => x
  | x :: y :: xs => x ++ sep ++ joinWith sep (y :: xs)

/-- Pairs every list element with its index, starting from `start`; this
realizes the pairing of descriptor entries with `index_sub_ctx` contexts
(`zip` against `itertools.count`) in the source. -/
def zipWithIndex {α : Type} (start : Nat) : List α → List (Nat × α)
  | [] => []
  | a :: as => (start, a) :: zipWithIndex (start + 1) as

/-- Components of `pathlib.Path(*api_package.split("."))`. -/
def packagePathComponents (apiPackage : String) : List String := splitOnChar '.' apiPackage

/-- Python `str(path)` on a path given by its components. -/
def renderPath (components : List String) : String := joinWith "/" components

/-- Python `with_suffix` semantics on a single path component: drop an existing
extension, then append the new suffix. -/
def componentWithSuffix (component suffix : String) : String :=
  let parts := splitOnChar '.' component
  if parts.length ≤ 1 then component ++ suffix
  else if parts.headD "" = "" ∧ parts.length = 2 then component ++ suffix
  else joinWith "." parts.dropLast ++ suffix

/-- Python `path.with_suffix(suffix)`: the suffix is applied to the final
component of the path. -/
def pathWithSuffix (components : List String) (suffix : String) : List String :=
  match components.getLast? with
  | none => []
  | some last => components.dropLast ++ [componentWithSuffix last suffix]

/-- Python `pathlib.PurePath(name).stem`: the final path component without its
extension. -/
def fileStem (name : String) : String :=
  let component := (splitOnChar '/' name).getLastD name
  let parts := splitOnChar '.' component
  if parts.length ≤ 1 then component
  else if parts.headD "" = "" ∧ parts.length = 2 then component
  else joinWith "." parts.dropLast

/-- Python truthiness of an `Optional[str]` value: `None` and `""` are falsy. -/
def optionStrTruthy : Option String → Bool
  | none => false
  | some s => !(s == "")

/-- True exactly on `Except.error`. -/
def isErr {ε α : Type} : Except ε α → Bool
  | Except.error _ => true
  | Except.ok _ => false

/-- Descriptor of a single enum value (`EnumValueDescriptorProto`). -/
structure EnumValueDescriptorProto where
  name : String
  number : Int
deriving DecidableEq

/-- Descriptor of an enum type (`EnumDescriptorProto`). -/
structure EnumDescriptorProto where
  name : String
  value : List EnumValueDescriptorProto
deriving DecidableEq

/-- Protobuf field type codes (`FieldDescriptorProto.Type`). -/
inductive FieldType where
  | TYPE_DOUBLE
  | TYPE_FLOAT
  | TYPE_INT64
  | TYPE_UINT64
  | TYPE_INT32
  | TYPE_FIXED64
  | TYPE_FIXED32
  | TYPE_BOOL
  | TYPE_STRING
  | TYPE_GROUP
  | TYPE_MESSAGE
  | TYPE_BYTES
  | TYPE_UINT32
  | TYPE_ENUM
  | TYPE_SFIXED32
  | TYPE_SFIXED64
  | TYPE_SINT32
  | TYPE_SINT64
deriving DecidableEq

/-- Numeric codes of `FieldDescriptorProto.Type`, used in error messages. -/
def fieldTypeCode : FieldType → Int
  | FieldType.TYPE_DOUBLE => 1
  | FieldType.TYPE_FLOAT => 2
  | FieldType.TYPE_INT64 => 3
  | FieldType.TYPE_UINT64 => 4
  | FieldType.TYPE_INT32 => 5
  | FieldType.TYPE_FIXED64 => 6
  | FieldType.TYPE_FIXED32 => 7
  | FieldType.TYPE_BOOL => 8
  | FieldType.TYPE_STRING => 9
  | FieldType.TYPE_GROUP => 10
  | FieldType.TYPE_MESSAGE => 11
  | FieldType.TYPE_BYTES => 12
  | FieldType.TYPE_UINT32 => 13
  | FieldType.TYPE_ENUM => 14
  | FieldType.TYPE_SFIXED32 => 15
  | FieldType.TYPE_SFIXED64 => 16
  | FieldType.TYPE_SINT32 => 17
  | FieldType.TYPE_SINT64 => 18

/-- Protobuf field labels (`FieldDescriptorProto.Label`). -/
inductive FieldLabel where
  | LABEL_OPTIONAL
  | LABEL_REQUIRED
  | LABEL_REPEATED
deriving DecidableEq

/-- Field descriptor (`FieldDescriptorProto`); `oneofIndex` is `some i` exactly
when the proto `oneof_index` member is present (`HasField('oneof_index')`). -/
structure FieldDescriptorProto where
  name : String
  type : FieldType
  type_name : String
  label : FieldLabel
  proto3_optional : Bool
  oneofIndex : Option Int
deriving DecidableEq

/-- Message options; the generator consults only `map_entry`. -/
structure MessageOptions where
  map_entry : Bool
deriving DecidableEq

/-- Message descriptor (`DescriptorProto`). -/
structure DescriptorProto where
  name : String
  field : List FieldDescriptorProto
  nested_type : List DescriptorProto
  enum_type : List EnumDescriptorProto
  options : MessageOptions

/-- Source-location table entry (`SourceCodeInfo.Location`). -/
structure Location where
  path : List Int
  span : List Int
  leading_comments : String
  trailing_comments : String
  leading_detached_comments : List String
deriving DecidableEq

/-- Position during descent (`LocationContext` in the source). -/
structure LocationContext where
  src_locations : List Location
  src_loc_code : Int
  src_loc_index : Int
  indent : Nat

/-- File descriptor (`FileDescriptorProto`); the fields the package assembler
consults are modelled, while the declarations and source-location table walked
by `generate_file` are consumed through the abstracted per-file generator. -/
structure FileDescriptorProto where
  name : String
  package : String
  enum_type : List EnumDescriptorProto
  message_type : List DescriptorProto

/-- Kind tag of a registered type (`TypeClass`). -/
inductive TypeClass where
  | ENUM
  | MESSAGE
  | SERVICE
deriving DecidableEq

/-- Registry entry (`TypeInfo`); alternatives that are not populated stay
`none`, as with the source dataclass defaults. -/
structure TypeInfo where
  typeClass : TypeClass
  enum : Option EnumDescriptorProto
  message : Option DescriptorProto

/-- One generated output record (`CodeGeneratorResponse.File`). -/
structure CodeGenFile where
  name : String
  content : String
deriving DecidableEq

/-- Recognized generator options: `flat_pack` records presence of the
`flat_pack` key in the options dict, `packages` is `options.get("packages")`. -/
structure GeneratorOptions where
  flat_pack : Bool
  packages : Option String

/-- Indentation unit (`INDENT_TEMPLATE`). -/
def INDENT_TEMPLATE : String := "    "

/-- Python `INDENT_TEMPLATE * n`. -/
def indentStr : Nat → String
  | 0 => ""
  | n + 1 => indentStr n ++ INDENT_TEMPLATE

/-- File header boilerplate (`FILE_HEADER`). -/
def FILE_HEADER : String := "# Code generated by TRAC\n\n"

/-- Standard imports boilerplate (`STD_IMPORTS`). -/
def STD_IMPORTS : String :=
  "from __future__ import annotations\nimport typing as _tp  # noqa\nimport dataclasses as _dc  # noqa\nimport enum as _enum  # noqa\n\n"

/-- Structural field number of `FileDescriptorProto.enum_type` in
`descriptor.proto`, computed in the source by `get_field_number` reflection. -/
def descFileEnum : Int := 5

/-- Structural field number of `FileDescriptorProto.message_type`. -/
def descFileMessage : Int := 4

/-- Structural field number of `FileDescriptorProto.service`. -/
def descFileService : Int := 6

/-- Structural field number of `EnumDescriptorProto.value`. -/
def descEnumValue : Int := 2

/-- Structural field number of `DescriptorProto.field`. -/
def descMessageField : Int := 2

/-- Structural field number of `ServiceDescriptorProto.method`. -/
def descServiceMethod : Int := 2

/-- `TracGenerator.PRIMITIVE_TYPE_MAPPING`, with every Python type object read
through `__name__` as `python_base_type` does; message, enum and the deprecated
group type have no entry. -/
def PRIMITIVE_TYPE_MAPPING : FieldType → Option String
  | FieldType.TYPE_DOUBLE => some "float"
  | FieldType.TYPE_FLOAT => some "float"
  | FieldType.TYPE_INT64 => some "int"
  | FieldType.TYPE_UINT64 => some "int"
  | FieldType.TYPE_INT32 => some "int"
  | FieldType.TYPE_FIXED64 => some "int"
  | FieldType.TYPE_FIXED32 => some "int"
  | FieldType.TYPE_BOOL => some "bool"
  | FieldType.TYPE_STRING => some "str"
  | FieldType.TYPE_GROUP => none
  | FieldType.TYPE_MESSAGE => none
  | FieldType.TYPE_BYTES => some "bytes"
  | FieldType.TYPE_UINT32 => some "int"
  | FieldType.TYPE_ENUM => none
  | FieldType.TYPE_SFIXED32 => some "int"
  | FieldType.TYPE_SFIXED64 => some "int"
  | FieldType.TYPE_SINT32 => some "int"
  | FieldType.TYPE_SINT64 => some "int"

/-- `TracGenerator.python_type_name`. -/
def pythonTypeName (package protoTypeName : String) (makeRelative useAlias : Bool) : String :=
  let typeName := if strStartsWith protoTypeName "." then strDrop protoTypeName 1 else protoTypeName
  let typeName :=
    if makeRelative && strStartsWith typeName package then strDrop typeName (package.length + 1)
    else typeName
  let typeName :=
    if useAlias && strStartsWith typeName "trac." then strDrop typeName ("trac.".length)
    else typeName
  typeName

/-- `TracGenerator.python_base_type`; the `ECodeGeneration` raise for an
unknown type code is `Except.error`. -/
def pythonBaseType (package : String) (field : FieldDescriptorProto)
    (makeRelative useAlias : Bool) : Except String String :=
  if field.type = FieldType.TYPE_MESSAGE ∨ field.type = FieldType.TYPE_ENUM then
    Except.ok (pythonTypeName package field.type_name makeRelative useAlias)
  else
    match PRIMITIVE_TYPE_MAPPING field.type with
    | some t => Except.ok t
    | none =>
      Except.error ("Unknown type in protobuf field descriptor: field = " ++ field.name ++
        ", type code = " ++ toString (fieldTypeCode field.type))

/-- `TracGenerator.python_field_type`. -/
def pythonFieldType (package : String) (field : FieldDescriptorProto)
    (message : DescriptorProto) : Except String String :=
  match pythonBaseType package field true true with
  | Except.error e => Except.error e
  | Except.ok baseType =>
    if field.label = FieldLabel.LABEL_REPEATED then
      match message.nested_type.find? (fun nt => baseType == message.name ++ "." ++ nt.name) with
      | some nestedType =>
        if nestedType.options.map_entry then
          match nestedType.field with
          | keyField :: valueField :: _ =>
            match pythonBaseType package keyField true true,
                  pythonBaseType package valueField true true with
            | Except.ok keyType, Except.ok valueType =>
              Except.ok ("_tp.Dict[" ++ keyType ++ ", " ++ valueType ++ "]")
            | Except.error e, _ => Except.error e
            | _, Except.error e => Except.error e
          | _ => Except.error "Index error: map entry type does not declare key and value fields"
        else
          Except.ok ("_tp.List[" ++ baseType ++ "]")
      | none => Except.ok ("_tp.List[" ++ baseType ++ "]")
    else if field.proto3_optional then
      Except.ok ("_tp.Optional[" ++ baseType ++ "]")
    else if field.oneofIndex.isSome then
      Except.ok ("_tp.Optional[" ++ baseType ++ "]")
    else
      Except.ok baseType

/-- `TracGenerator.python_default_value`; Python runtime failures on a missing
registry entry or an empty enum value list are `Except.error`. -/
def pythonDefaultValue (package : String) (field : FieldDescriptorProto)
    (message : DescriptorProto) (types : String → Option TypeInfo) : Except String String :=
  match pythonBaseType package field false false with
  | Except.error e => Except.error e
  | Except.ok typeName =>
    let typeInfo := types typeName
    if field.label = FieldLabel.LABEL_REPEATED then
      match message.nested_type.find?
          (fun nt => strEndsWith typeName (message.name ++ "." ++ nt.name)) with
      | some nestedType =>
        if nestedType.options.map_entry then Except.ok "_dc.field(default_factory=dict)"
        else Except.ok "_dc.field(default_factory=list)"
      | none => Except.ok "_dc.field(default_factory=list)"
    else if field.oneofIndex.isSome then Except.ok "None"
    else if field.type = FieldType.TYPE_MESSAGE then Except.ok "None"
    else if field.type = FieldType.TYPE_ENUM then
      match typeInfo with
      | some ti =>
        match ti.enum with
        | some enumType =>
          match enumType.value with
          | v :: _ => Except.ok (enumType.name ++ "." ++ v.name)
          | [] => Except.error "Index error: enum type declares no values"
        | none => Except.error "Attribute error: registry entry carries no enum descriptor"
      | none => Except.error "Attribute error: no registry entry for the enum type"
    else Except.ok "None"

/-- `TracGenerator.filter_src_location`. -/
def filterSrcLocation (locations : List Location) (locType locIndex : Int) : List Location :=
  let relativePath := fun (l : Location) =>
    Location.mk (l.path.drop 2) l.span l.leading_comments l.trailing_comments
      l.leading_detached_comments
  (locations.filter (fun l =>
    decide (2 ≤ l.path.length) && (l.path.get? 0 == some locType) &&
      (l.path.get? 1 == some locIndex))).map relativePath

/-- `TracGenerator.current_location`. -/
def currentLocation (locations : List Location) : Option Location :=
  locations.find? (fun l => l.path.length == 0)

/-- `TracGenerator.comment_for_current_location`. -/
def commentForCurrentLocation (locations : List Location) : Option String :=
  match currentLocation locations with
  | some loc => some loc.leading_comments
  | none => none

/-- `TracGenerator.format_doc_comment`.  The call to
`translate_comment_from_proto` (regex-driven comment translation, outside the
scope of the claims) is abstracted as the `translate` argument; the real
translator returns a string for every input, `""` for an absent comment. -/
def formatDocComment (translate : LocationContext → Option String → Bool → Option String)
    (ctx : LocationContext) (comment : Option String) (nextIndent : Bool) : String :=
  let translatedComment := translate ctx comment nextIndent
  let indent := if nextIndent then ctx.indent + 1 else ctx.indent
  match translatedComment with
  | none => ""
  | some tc =>
    if strTrim tc = "" then ""
    else if (strTrim tc).data.contains '\n' then
      indentStr indent ++ "\"\"\"\n" ++ tc ++ "\n" ++ indentStr indent ++ "\"\"\"\n\n"
    else
      indentStr indent ++ "\"\"\"" ++ strTrim tc ++ "\"\"\"\n\n"

/-- `TracGenerator.format_enum_comment`; for a `none` translation result the
source would fail on `lstrip`, which the real translator never produces, so the
embedding returns `""` there. -/
def formatEnumComment (translate : LocationContext → Option String → Bool → Option String)
    (ctx : LocationContext) (comment : Option String) : String :=
  match translate ctx comment false with
  | none => ""
  | some tc0 =>
    let tc := strTrimLeft tc0
    if strTrim tc = "" then ""
    else if !((strTrim tc).data.contains '\n') then
      "\"\"\"" ++ strTrim tc ++ "\"\"\""
    else
      "\"\"\"" ++ tc ++ "\n" ++ indentStr ctx.indent ++ "\"\"\""

/-- `TracGenerator.generate_enum_value`. -/
def generateEnumValue (translate : LocationContext → Option String → Bool → Option String)
    (ctx : LocationContext) (descriptor : EnumValueDescriptorProto) : String :=
  let filteredLoc := filterSrcLocation ctx.src_locations ctx.src_loc_code ctx.src_loc_index
  let rawComment := commentForCurrentLocation filteredLoc
  let formattedComment := formatEnumComment translate ctx rawComment
  indentStr ctx.indent ++ descriptor.name ++ " = " ++ toString descriptor.number ++ ", " ++
    formattedComment ++ "\n\n"

/-- `TracGenerator.generate_enum`; the `ECodeGeneration` raise for a nested
enum is `Except.error`, and the Python truthiness test `if enum_scope:` is
`optionStrTruthy`. -/
def generateEnum (translate : LocationContext → Option String → Bool → Option String)
    (ctx : LocationContext) (descriptor : EnumDescriptorProto)
    (enumScope : Option String) : Except String String :=
  if optionStrTruthy enumScope then
    Except.error (" [ ENUM  ] " ++ enumScope.getD "" ++ "." ++ descriptor.name ++
      ": Nested enums not currently supported")
  else
    let filteredLoc := filterSrcLocation ctx.src_locations ctx.src_loc_code ctx.src_loc_index
    if descriptor.value.length = 0 then
      Except.ok (indentStr ctx.indent ++ "pass\n\n")
    else
      let values := (zipWithIndex 0 descriptor.value).map (fun iv =>
        generateEnumValue translate
          (LocationContext.mk filteredLoc descEnumValue (Int.ofNat iv.fst) (ctx.indent + 1)) iv.snd)
      let rawComment := commentForCurrentLocation filteredLoc
      let docComment := formatDocComment translate ctx rawComment true
      Except.ok (indentStr ctx.indent ++ "class " ++ descriptor.name ++ "(_enum.Enum):" ++
        "\n\n" ++ docComment ++ String.join values)

/-- Python loop `while module_code.endswith("\n\n"): module_code = module_code[:-1]`,
processed on the reversed character list. -/
def stripLeadingDupNl : List Char → List Char
  | [] => []
  | [c] => [c]
  | c1 :: c2 :: rest =>
    if c1 = '\n' ∧ c2 = '\n' then stripLeadingDupNl (c2 :: rest) else c1 :: c2 :: rest

/-- Strips trailing newlines down to at most one, exactly as the `while` loop
in `generate_package` does. -/
def stripExtraNewlines (s : String) : String :=
  String.mk ((stripLeadingDupNl s.data.reverse).reverse)

/-- `TracGenerator.generate_package_imports`. -/
def generatePackageImports (descriptor : FileDescriptorProto) : String :=
  let moduleName := fileStem descriptor.name
  let imports :=
    if 0 < descriptor.enum_type.length ∨ 0 < descriptor.message_type.length then "\n" else ""
  let imports := descriptor.enum_type.foldl
    (fun acc e => acc ++ "from ." ++ moduleName ++ " import " ++ e.name ++ "\n") imports
  let imports := descriptor.message_type.foldl
    (fun acc m => acc ++ "from ." ++ moduleName ++ " import " ++ m.name ++ "\n") imports
  imports

/-- The per-file loop of `TracGenerator.generate_package`, accumulating the
output records and the package-manifest import statements.  `generateFile`
abstracts the call `self.generate_file(src_locations, 0, fd, api_package,
type_map, not flat_pack)`, and `filesNonempty` is `len(files) > 0` for the full
input list, a constant throughout the loop. -/
def generatePackageLoop (flatPack : Bool) (packagePath : List String)
    (generateFile : FileDescriptorProto → Except String String) (filesNonempty : Bool) :
    List FileDescriptorProto → List CodeGenFile → String →
      Except String (List CodeGenFile × String)
  | [], outputFiles, packageImports => Except.ok (outputFiles, packageImports)
  | fd :: rest, outputFiles, packageImports =>
    match generateFile fd with
    | Except.error e => Except.error e
    | Except.ok moduleCode =>
      if flatPack && filesNonempty then
        if outputFiles.length = 0 then
          generatePackageLoop flatPack packagePath generateFile filesNonempty rest
            (outputFiles ++ [⟨renderPath (pathWithSuffix packagePath ".py"),
              FILE_HEADER ++ STD_IMPORTS ++ moduleCode⟩])
            packageImports
        else
          generatePackageLoop flatPack packagePath generateFile filesNonempty rest
            (outputFiles ++ [⟨"", moduleCode⟩]) packageImports
      else
        generatePackageLoop flatPack packagePath generateFile filesNonempty rest
          (outputFiles ++ [⟨renderPath (packagePath ++ [componentWithSuffix (fileStem fd.name) ".py"]),
            stripExtraNewlines moduleCode⟩])
          (packageImports ++ generatePackageImports fd)

/-- `TracGenerator.generate_package`: drives the per-file loop, appends the
package-level `__init__` manifest outside flat-pack mode, then applies the
`packages` filter option. -/
def generatePackage (options : GeneratorOptions)
    (generateFile : FileDescriptorProto → Except String String)
    (apiPackage : String) (files : List FileDescriptorProto) :
    Except String (List CodeGenFile) :=
  let flatPack := options.flat_pack
  let packagePath := packagePathComponents apiPackage
  match generatePackageLoop flatPack packagePath generateFile (!files.isEmpty) files [] "" with
  | Except.error e => Except.error e
  | Except.ok (outputFiles, packageImports) =>
    let outputFiles :=
      if !flatPack || files.isEmpty then
        outputFiles ++ [⟨renderPath (packagePath ++ ["__init__.py"]),
          strDropLast FILE_HEADER ++ packageImports⟩]
      else outputFiles
    match options.packages with
    | none => Except.ok outputFiles
    | some packageFilter =>
      if apiPackage = packageFilter || strStartsWith apiPackage (packageFilter ++ ".") then
        Except.ok outputFiles
      else if strStartsWith packageFilter (apiPackage ++ ".") then
        Except.ok [⟨renderPath (packagePath ++ ["__init__.py"]), ""⟩]
      else
        Except.ok []

/-- Unfolds string append to list append on the underlying characters. -/
theorem strData_append (a b : String) : (a ++ b).data = a.data ++ b.data := rfl

/-- String length is additive over append. -/
theorem strLength_append (a b : String) : (a ++ b).length = a.length + b.length := by
  show (a ++ b).data.length = a.data.length + b.data.length
  rw [strData_append, List.length_append]

/-- A string with a nonempty right component is nonempty. -/
theorem append_ne_empty_of_right_ne (a b : String) (hb : b.length ≠ 0) : a ++ b ≠ "" := by
  intro h
  have hl := congrArg String.length h
  rw [strLength_append] at hl
  have h0 : String.length "" = 0 := rfl
  omega

/-- `List.find?` only depends on the pointwise behavior of its predicate. -/
theorem find?_congr_pred {α : Type} (p q : α → Bool) (h : ∀ a, p a = q a) :
    ∀ l : List α, l.find? p = l.find? q := by
  intro l
  induction l with
  | nil => rfl
  | cons a as ih => simp only [List.find?, h a, ih]

/-- If every per-file generation succeeds, the package-assembly loop succeeds. -/
theorem generatePackageLoop_ok (flatPack : Bool) (packagePath : List String)
    (generateFile : FileDescriptorProto → Except String String) (filesNonempty : Bool)
    (files : List FileDescriptorProto) :
    (∀ fd ∈ files, isErr (generateFile fd) = false) →
    ∀ (acc : List CodeGenFile) (imp : String),
      ∃ r, generatePackageLoop flatPack packagePath generateFile filesNonempty files acc imp =
        Except.ok r := by
  induction files with
  | nil => intro _ acc imp; exact ⟨(acc, imp), rfl⟩
  | cons fd rest ih =>
    intro h acc imp
    have hfd := h fd (by simp)
    have hrest : ∀ x ∈ rest, isErr (generateFile x) = false := fun x hx => h x (by simp [hx])
    cases hgf : generateFile fd with
    | error e => rw [hgf] at hfd; simp [isErr] at hfd
    | ok c =>
      simp only [generatePackageLoop, hgf]
      split
      · split
        · exact ih hrest _ _
        · exact ih hrest _ _
      · exact ih hrest _ _

/-- If generation fails for a file of the package, the package-assembly loop
propagates the failure. -/
theorem generatePackageLoop_err (flatPack : Bool) (packagePath : List String)
    (generateFile : FileDescriptorProto → Except String String) (filesNonempty : Bool)
    (files : List FileDescriptorProto) (fd : FileDescriptorProto) (e : String) :
    fd ∈ files → generateFile fd = Except.error e →
    ∀ (acc : List CodeGenFile) (imp : String),
      isErr (generatePackageLoop flatPack packagePath generateFile filesNonempty files acc imp) =
        true := by
  induction files with
  | nil => intro h; cases h
  | cons hd rest ih =>
    intro hmem herr acc imp
    cases hgf : generateFile hd with
    | error e2 => simp only [generatePackageLoop, hgf]; rfl
    | ok c =>
      have hfd : fd ∈ rest := by
        cases List.mem_cons.mp hmem with
        | inl heq => subst heq; rw [hgf] at herr; cases herr
        | inr h => exact h
      simp only [generatePackageLoop, hgf]
      split
      · split
        · exact ih hfd herr _ _
        · exact ih hfd herr _ _
      · exact ih hfd herr _ _

/-- Claim C7: base-type resolution fails exactly for a field whose type code is
neither a message nor an enum reference and has no entry in the static
primitive-type table; for every code in the table it returns the mapped Python
type name; and the table maps double and float to `float`, every integer
variant to `int`, bool to `bool`, string to `str` and bytes to `bytes`. -/
theorem c7_base_type_error_exactly_on_unknown_codes
    (package : String) (field : FieldDescriptorProto) (makeRelative useAlias : Bool) :
    (isErr (pythonBaseType package field makeRelative useAlias) = true ↔
      (field.type ≠ FieldType.TYPE_MESSAGE ∧ field.type ≠ FieldType.TYPE_ENUM ∧
        PRIMITIVE_TYPE_MAPPING field.type = none))
    ∧ (∀ t, PRIMITIVE_TYPE_MAPPING field.type = some t →
        pythonBaseType package field makeRelative useAlias = Except.ok t)
    ∧ (PRIMITIVE_TYPE_MAPPING FieldType.TYPE_DOUBLE = some "float" ∧
       PRIMITIVE_TYPE_MAPPING FieldType.TYPE_FLOAT = some "float" ∧
       PRIMITIVE_TYPE_MAPPING FieldType.TYPE_INT32 = some "int" ∧
       PRIMITIVE_TYPE_MAPPING FieldType.TYPE_INT64 = some "int" ∧
       PRIMITIVE_TYPE_MAPPING FieldType.TYPE_UINT32 = some "int" ∧
       PRIMITIVE_TYPE_MAPPING FieldType.TYPE_UINT64 = some "int" ∧
       PRIMITIVE_TYPE_MAPPING FieldType.TYPE_SINT32 = some "int" ∧
       PRIMITIVE_TYPE_MAPPING FieldType.TYPE_SINT64 = some "int" ∧
       PRIMITIVE_TYPE_MAPPING FieldType.TYPE_FIXED32 = some "int" ∧
       PRIMITIVE_TYPE_MAPPING FieldType.TYPE_FIXED64 = some "int" ∧
       PRIMITIVE_TYPE_MAPPING FieldType.TYPE_SFIXED32 = some "int" ∧
       PRIMITIVE_TYPE_MAPPING FieldType.TYPE_SFIXED64 = some "int" ∧
       PRIMITIVE_TYPE_MAPPING FieldType.TYPE_BOOL = some "bool" ∧
       PRIMITIVE_TYPE_MAPPING FieldType.TYPE_STRING = some "str" ∧
       PRIMITIVE_TYPE_MAPPING FieldType.TYPE_BYTES = some "bytes") := by
  refine ⟨?_, ?_, by decide⟩
  · cases h : field.type <;>
      simp [pythonBaseType, PRIMITIVE_TYPE_MAPPING, isErr, h]
  · intro t ht
    cases h : field.type <;> rw [h] at ht <;>
      simp only [PRIMITIVE_TYPE_MAPPING] at ht <;> (try cases ht) <;>
      simp [pythonBaseType, PRIMITIVE_TYPE_MAPPING, h]

/-- Witness for C7: a group-typed field has no table entry and is rejected,
while a bool-typed field resolves to `bool`. -/
theorem c7_witness :
    isErr (pythonBaseType "p"
      ⟨"f", FieldType.TYPE_GROUP, "", FieldLabel.LABEL_OPTIONAL, false, none⟩ false false) = true ∧
    pythonBaseType "p"
      ⟨"g", FieldType.TYPE_BOOL, "", FieldLabel.LABEL_OPTIONAL, false, none⟩ false false =
      Except.ok "bool" :=
  ⟨(c7_base_type_error_exactly_on_unknown_codes "p"
      ⟨"f", FieldType.TYPE_GROUP, "", FieldLabel.LABEL_OPTIONAL, false, none⟩ false false).1.mpr
      ⟨by decide, by decide, rfl⟩,
   (c7_base_type_error_exactly_on_unknown_codes "p"
      ⟨"g", FieldType.TYPE_BOOL, "", FieldLabel.LABEL_OPTIONAL, false, none⟩ false false).2.1
      "bool" rfl⟩

/-- Claim C4: a oneof member, a non-repeated message-typed field, and an
explicitly optional field (whose synthetic oneof membership the descriptor
records through `oneof_index`) all default to `None`; every repeated field
defaults to a fresh empty-collection default factory and never to `None`. -/
theorem c4_default_optionality
    (package : String) (field : FieldDescriptorProto) (message : DescriptorProto)
    (types : String → Option TypeInfo) (tn : String) :
    (pythonBaseType package field false false = Except.ok tn →
      field.oneofIndex.isSome = true → field.label ≠ FieldLabel.LABEL_REPEATED →
      pythonDefaultValue package field message types = Except.ok "None")
    ∧ (field.type = FieldType.TYPE_MESSAGE → field.label ≠ FieldLabel.LABEL_REPEATED →
      pythonDefaultValue package field message types = Except.ok "None")
    ∧ (field.proto3_optional = true → field.oneofIndex.isSome = true →
      pythonBaseType package field false false = Except.ok tn →
      field.label ≠ FieldLabel.LABEL_REPEATED →
      pythonDefaultValue package field message types = Except.ok "None")
    ∧ (pythonBaseType package field false false = Except.ok tn →
      field.label = FieldLabel.LABEL_REPEATED →
      ((pythonDefaultValue package field message types =
          Except.ok "_dc.field(default_factory=dict)" ∨
        pythonDefaultValue package field message types =
          Except.ok "_dc.field(default_factory=list)") ∧
       pythonDefaultValue package field message types ≠ Except.ok "None")) := by
  refine ⟨?_, ?_, ?_, ?_⟩
  · intro hb hone hrep
    simp [pythonDefaultValue, hb, hone, hrep]
  · intro hty hrep
    cases hone : field.oneofIndex <;>
      simp [pythonDefaultValue, pythonBaseType, hty, hrep, hone]
  · intro _ hone hb hrep
    simp [pythonDefaultValue, hb, hone, hrep]
  · intro hb hrep
    have hcases :
        pythonDefaultValue package field message types =
          Except.ok "_dc.field(default_factory=dict)" ∨
        pythonDefaultValue package field message types =
          Except.ok "_dc.field(default_factory=list)" := by
      simp only [pythonDefaultValue, hb, hrep]
      cases hf : message.nested_type.find?
          (fun nt => strEndsWith tn (message.name ++ "." ++ nt.name)) with
      | none => simp [hf]
      | some nt =>
        cases hme : nt.options.map_entry <;> simp [hf, hme]
    refine ⟨hcases, ?_⟩
    cases hcases with
    | inl h => rw [h]; decide
    | inr h => rw [h]; decide

/-- Witness for C4 at concrete fields: a oneof-member string field, a singular
message field and an explicitly optional string field default to `None`; a
repeated string field defaults to an empty-collection factory. -/
theorem c4_witness :
    pythonDefaultValue "p"
      ⟨"a", FieldType.TYPE_STRING, "", FieldLabel.LABEL_OPTIONAL, false, some 0⟩
      ⟨"M", [], [], [], ⟨false⟩⟩ (fun _ => none) = Except.ok "None" ∧
    pythonDefaultValue "p"
      ⟨"b", FieldType.TYPE_MESSAGE, ".p.N", FieldLabel.LABEL_OPTIONAL, false, none⟩
      ⟨"M", [], [], [], ⟨false⟩⟩ (fun _ => none) = Except.ok "None" ∧
    pythonDefaultValue "p"
      ⟨"c", FieldType.TYPE_STRING, "", FieldLabel.LABEL_OPTIONAL, true, some 0⟩
      ⟨"M", [], [], [], ⟨false⟩⟩ (fun _ => none) = Except.ok "None" ∧
    (pythonDefaultValue "p"
      ⟨"d", FieldType.TYPE_STRING, "", FieldLabel.LABEL_REPEATED, false, none⟩
      ⟨"M", [], [], [], ⟨false⟩⟩ (fun _ => none) =
        Except.ok "_dc.field(default_factory=dict)" ∨
     pythonDefaultValue "p"
      ⟨"d", FieldType.TYPE_STRING, "", FieldLabel.LABEL_REPEATED, false, none⟩
      ⟨"M", [], [], [], ⟨false⟩⟩ (fun _ => none) =
        Except.ok "_dc.field(default_factory=list)") :=
  ⟨(c4_default_optionality "p"
      ⟨"a", FieldType.TYPE_STRING, "", FieldLabel.LABEL_OPTIONAL, false, some 0⟩
      ⟨"M", [], [], [], ⟨false⟩⟩ (fun _ => none) "str").1 rfl rfl (by decide),
   (c4_default_optionality "p"
      ⟨"b", FieldType.TYPE_MESSAGE, ".p.N", FieldLabel.LABEL_OPTIONAL, false, none⟩
      ⟨"M", [], [], [], ⟨false⟩⟩ (fun _ => none) "N").2.1 rfl (by decide),
   (c4_default_optionality "p"
      ⟨"c", FieldType.TYPE_STRING, "", FieldLabel.LABEL_OPTIONAL, true, some 0⟩
      ⟨"M", [], [], [], ⟨false⟩⟩ (fun _ => none) "str").2.2.1 rfl rfl rfl (by decide),
   ((c4_default_optionality "p"
      ⟨"d", FieldType.TYPE_STRING, "", FieldLabel.LABEL_REPEATED, false, none⟩
      ⟨"M", [], [], [], ⟨false⟩⟩ (fun _ => none) "str").2.2.2 rfl rfl).1⟩

/-- Claim C5: for a non-repeated, non-oneof field of enum type, the default is
the registered enum's first declared value, written as the enum's simple name
followed by the value name. -/
theorem c5_enum_default
    (package : String) (field : FieldDescriptorProto) (message : DescriptorProto)
    (types : String → Option TypeInfo) (ti : TypeInfo) (enumType : EnumDescriptorProto)
    (v : EnumValueDescriptorProto) (vs : List EnumValueDescriptorProto) :
    field.type = FieldType.TYPE_ENUM →
    field.label ≠ FieldLabel.LABEL_REPEATED →
    field.oneofIndex = none →
    types (pythonTypeName package field.type_name false false) = some ti →
    ti.enum = some enumType →
    enumType.value = v :: vs →
    pythonDefaultValue package field message types =
      Except.ok (enumType.name ++ "." ++ v.name) := by
  intro hty hrep hone hreg henum hval
  simp [pythonDefaultValue, pythonBaseType, hty, hrep, hone, hreg, henum, hval]

/-- Witness for C5 on the enum `Color` with values `RED = 0`, `BLUE = 1`: a
singular non-oneof field of type `Color` defaults to `Color.RED`. -/
theorem c5_witness :
    pythonDefaultValue "p"
      ⟨"c", FieldType.TYPE_ENUM, ".p.Color", FieldLabel.LABEL_OPTIONAL, false, none⟩
      ⟨"M", [], [], [], ⟨false⟩⟩
      (fun n => if n = "p.Color"
        then some ⟨TypeClass.ENUM, some ⟨"Color", [⟨"RED", 0⟩, ⟨"BLUE", 1⟩]⟩, none⟩
        else none) = Except.ok "Color.RED" :=
  c5_enum_default "p"
    ⟨"c", FieldType.TYPE_ENUM, ".p.Color", FieldLabel.LABEL_OPTIONAL, false, none⟩
    ⟨"M", [], [], [], ⟨false⟩⟩
    (fun n => if n = "p.Color"
      then some ⟨TypeClass.ENUM, some ⟨"Color", [⟨"RED", 0⟩, ⟨"BLUE", 1⟩]⟩, none⟩
      else none)
    ⟨TypeClass.ENUM, some ⟨"Color", [⟨"RED", 0⟩, ⟨"BLUE", 1⟩]⟩, none⟩
    ⟨"Color", [⟨"RED", 0⟩, ⟨"BLUE", 1⟩]⟩ ⟨"RED", 0⟩ [⟨"BLUE", 1⟩]
    rfl (by decide) rfl rfl rfl rfl

/-- Claim C3: a repeated field whose resolved element type names a nested
map-entry type of the enclosing message resolves to a Python dict of the
resolved types of the entry's first and second synthetic fields, while an
otherwise identical repeated field whose matched nested type is not flagged as
a map entry resolves to a Python list of the base type. -/
theorem c3_map_vs_list
    (package : String) (message entryType : DescriptorProto) (field : FieldDescriptorProto)
    (baseType keyType valueType : String) (keyField valueField : FieldDescriptorProto)
    (restFields : List FieldDescriptorProto) :
    field.label = FieldLabel.LABEL_REPEATED →
    pythonBaseType package field true true = Except.ok baseType →
    message.nested_type.find? (fun nt => baseType == message.name ++ "." ++ nt.name) =
      some entryType →
    ((entryType.options.map_entry = true →
      entryType.field = keyField :: valueField :: restFields →
      pythonBaseType package keyField true true = Except.ok keyType →
      pythonBaseType package valueField true true = Except.ok valueType →
      pythonFieldType package field message =
        Except.ok ("_tp.Dict[" ++ keyType ++ ", " ++ valueType ++ "]"))
    ∧ (entryType.options.map_entry = false →
      pythonFieldType package field message = Except.ok ("_tp.List[" ++ baseType ++ "]"))) := by
  intro hrep hbase hfind
  constructor
  · intro hmap hfields hkey hvalue
    simp [pythonFieldType, hbase, hrep, hfind, hmap, hfields, hkey, hvalue]
  · intro hmap
    simp [pythonFieldType, hbase, hrep, hfind, hmap]

/-- Witness for C3: in package `p`, message `M` with nested map-entry type
`E{key: string, value: string}` gives `Dict[str, str]` for a repeated field of
type `M.E`, and message `M2` with a non-map-entry nested type `L` gives
`List[M2.L]` for a repeated field of type `M2.L`. -/
theorem c3_witness :
    pythonFieldType "p"
      ⟨"f", FieldType.TYPE_MESSAGE, ".p.M.E", FieldLabel.LABEL_REPEATED, false, none⟩
      ⟨"M", [],
        [⟨"E", [⟨"key", FieldType.TYPE_STRING, "", FieldLabel.LABEL_OPTIONAL, false, none⟩,
                ⟨"value", FieldType.TYPE_STRING, "", FieldLabel.LABEL_OPTIONAL, false, none⟩],
          [], [], ⟨true⟩⟩], [], ⟨false⟩⟩ = Except.ok "_tp.Dict[str, str]" ∧
    pythonFieldType "p"
      ⟨"g", FieldType.TYPE_MESSAGE, ".p.M2.L", FieldLabel.LABEL_REPEATED, false, none⟩
      ⟨"M2", [], [⟨"L", [], [], [], ⟨false⟩⟩], [], ⟨false⟩⟩ =
      Except.ok "_tp.List[M2.L]" :=
  ⟨(c3_map_vs_list "p"
      ⟨"M", [],
        [⟨"E", [⟨"key", FieldType.TYPE_STRING, "", FieldLabel.LABEL_OPTIONAL, false, none⟩,
                ⟨"value", FieldType.TYPE_STRING, "", FieldLabel.LABEL_OPTIONAL, false, none⟩],
          [], [], ⟨true⟩⟩], [], ⟨false⟩⟩
      ⟨"E", [⟨"key", FieldType.TYPE_STRING, "", FieldLabel.LABEL_OPTIONAL, false, none⟩,
             ⟨"value", FieldType.TYPE_STRING, "", FieldLabel.LABEL_OPTIONAL, false, none⟩],
        [], [], ⟨true⟩⟩
      ⟨"f", FieldType.TYPE_MESSAGE, ".p.M.E", FieldLabel.LABEL_REPEATED, false, none⟩
      "M.E" "str" "str"
      ⟨"key", FieldType.TYPE_STRING, "", FieldLabel.LABEL_OPTIONAL, false, none⟩
      ⟨"value", FieldType.TYPE_STRING, "", FieldLabel.LABEL_OPTIONAL, false, none⟩
      [] rfl rfl rfl).1 rfl rfl rfl rfl,
   (c3_map_vs_list "p"
      ⟨"M2", [], [⟨"L", [], [], [], ⟨false⟩⟩], [], ⟨false⟩⟩
      ⟨"L", [], [], [], ⟨false⟩⟩
      ⟨"g", FieldType.TYPE_MESSAGE, ".p.M2.L", FieldLabel.LABEL_REPEATED, false, none⟩
      "M2.L" "" "" ⟨"", FieldType.TYPE_STRING, "", FieldLabel.LABEL_OPTIONAL, false, none⟩
      ⟨"", FieldType.TYPE_STRING, "", FieldLabel.LABEL_OPTIONAL, false, none⟩
      [] rfl rfl rfl).2 rfl⟩

/-- The failing input for claim C10: message `M`, nested inside message `O` of
package `p`, declaring the synthetic map-entry type `E{key: string, value:
string}`; its repeated field of type `.p.O.M.E` is typed and defaulted
inconsistently. -/
def nestedMapMessage : DescriptorProto :=
  ⟨"M", [],
    [⟨"E", [⟨"key", FieldType.TYPE_STRING, "", FieldLabel.LABEL_OPTIONAL, false, none⟩,
            ⟨"value", FieldType.TYPE_STRING, "", FieldLabel.LABEL_OPTIONAL, false, none⟩],
      [], [], ⟨true⟩⟩], [], ⟨false⟩⟩

/-- Claim C10 evaluated at the failing input: for a repeated map field declared
in a message `M` that is itself nested inside message `O` of package `p`, the
type resolver compares the package-relative base name `O.M.E` for equality
against `M.E`, misses the map-entry type and produces a list type, while the
default resolver's suffix match finds it and produces the dict default factory,
so the generated member is `_tp.List[O.M.E] = _dc.field(default_factory=dict)`. -/
theorem c10_resolver_mismatch_at_nested_message :
    pythonFieldType "p"
      ⟨"f", FieldType.TYPE_MESSAGE, ".p.O.M.E", FieldLabel.LABEL_REPEATED, false, none⟩
      nestedMapMessage = Except.ok "_tp.List[O.M.E]" ∧
    pythonDefaultValue "p"
      ⟨"f", FieldType.TYPE_MESSAGE, ".p.O.M.E", FieldLabel.LABEL_REPEATED, false, none⟩
      nestedMapMessage (fun _ => none) = Except.ok "_dc.field(default_factory=dict)" :=
  ⟨rfl, rfl⟩

/-- Claim C8: narrowing a source-location list to a structural (field code,
index) prefix keeps exactly the entries whose path begins with that two-element
prefix, strips the prefix from their paths and leaves every other entry datum
unchanged; and the current location of a location list is its first entry whose
path is empty.  The embedding is pure, so the input list is never modified. -/
theorem c8_source_location_narrowing (locations : List Location) (locType locIndex : Int) :
    (filterSrcLocation locations locType locIndex =
      locations.filterMap (fun l =>
        match l.path with
        | a :: b :: rest =>
          if a = locType ∧ b = locIndex then
            some (Location.mk rest l.span l.leading_comments l.trailing_comments
              l.leading_detached_comments)
          else none
        | [] => none
        | [_] => none))
    ∧ (currentLocation (filterSrcLocation locations locType locIndex) =
        (filterSrcLocation locations locType locIndex).find? (fun l => l.path.isEmpty)) := by
  constructor
  · simp only [filterSrcLocation]
    induction locations with
    | nil => rfl
    | cons l rest ih =>
      simp only [List.filter_cons, List.filterMap_cons]
      rcases hp : l.path with _ | ⟨a, tail1⟩
      · simpa [hp] using ih
      · rcases tail1 with _ | ⟨b, tail⟩
        · simpa [hp] using ih
        · by_cases ha : a = locType
          · by_cases hb : b = locIndex
            · subst ha; subst hb; simpa [hp] using ih
            · simpa [hp, ha, hb] using ih
          · simpa [hp, ha] using ih
  · exact find?_congr_pred (fun l => l.path.length == 0) (fun l => l.path.isEmpty)
      (fun l => by cases hp : l.path <;> simp [hp])
      (filterSrcLocation locations locType locIndex)

/-- Claim C9: documentation-comment formatting yields no comment at all for an
absent, empty or whitespace-only translated comment; otherwise it yields the
single-line comment form when the stripped translation contains no line break
and the multi-line comment block when it does, in both cases a nonempty
comment. -/
theorem c9_doc_comment_formatting
    (translate : LocationContext → Option String → Bool → Option String)
    (ctx : LocationContext) (comment : Option String) (nextIndent : Bool) :
    (translate ctx comment nextIndent = none →
      formatDocComment translate ctx comment nextIndent = "")
    ∧ (∀ tc, translate ctx comment nextIndent = some tc → strTrim tc = "" →
      formatDocComment translate ctx comment nextIndent = "")
    ∧ (∀ tc, translate ctx comment nextIndent = some tc → strTrim tc ≠ "" →
      (strTrim tc).data.contains '\n' = false →
      (formatDocComment translate ctx comment nextIndent =
        indentStr (if nextIndent then ctx.indent + 1 else ctx.indent) ++ "\"\"\"" ++
          strTrim tc ++ "\"\"\"\n\n" ∧
       formatDocComment translate ctx comment nextIndent ≠ ""))
    ∧ (∀ tc, translate ctx comment nextIndent = some tc → strTrim tc ≠ "" →
      (strTrim tc).data.contains '\n' = true →
      (formatDocComment translate ctx comment nextIndent =
        indentStr (if nextIndent then ctx.indent + 1 else ctx.indent) ++ "\"\"\"\n" ++ tc ++
          "\n" ++ indentStr (if nextIndent then ctx.indent + 1 else ctx.indent) ++ "\"\"\"\n\n" ∧
       formatDocComment translate ctx comment nextIndent ≠ "")) := by
  refine ⟨?_, ?_, ?_, ?_⟩
  · intro h
    simp [formatDocComment, h]
  · intro tc htc htrim
    simp [formatDocComment, htc, htrim]
  · intro tc htc htrim hnl
    have hfmt : formatDocComment translate ctx comment nextIndent =
        indentStr (if nextIndent then ctx.indent + 1 else ctx.indent) ++ "\"\"\"" ++
          strTrim tc ++ "\"\"\"\n\n" := by
      simp only [formatDocComment, htc]
      rw [if_neg htrim, hnl]
      simp
    refine ⟨hfmt, ?_⟩
    rw [hfmt]
    exact append_ne_empty_of_right_ne _ "\"\"\"\n\n" (by decide)
  · intro tc htc htrim hnl
    have hfmt : formatDocComment translate ctx comment nextIndent =
        indentStr (if nextIndent then ctx.indent + 1 else ctx.indent) ++ "\"\"\"\n" ++ tc ++
          "\n" ++ indentStr (if nextIndent then ctx.indent + 1 else ctx.indent) ++
          "\"\"\"\n\n" := by
      simp only [formatDocComment, htc]
      rw [if_neg htrim, hnl]
      simp
    refine ⟨hfmt, ?_⟩
    rw [hfmt]
    exact append_ne_empty_of_right_ne _ "\"\"\"\n\n" (by decide)

/-- Witness for C9 at depth 1: a whitespace-only translation and an absent
translation produce no comment, `hi` produces the single-line form, and a
translation with a line break produces the multi-line block. -/
theorem c9_witness :
    formatDocComment (fun _ c _ => c) ⟨[], 0, 0, 1⟩ (some "  ") false = "" ∧
    formatDocComment (fun _ c _ => c) ⟨[], 0, 0, 1⟩ none false = "" ∧
    formatDocComment (fun _ c _ => c) ⟨[], 0, 0, 1⟩ (some "hi") false =
      "    \"\"\"hi\"\"\"\n\n" ∧
    formatDocComment (fun _ c _ => c) ⟨[], 0, 0, 1⟩ (some "a\nb") false =
      "    \"\"\"\na\nb\n    \"\"\"\n\n" := by
  refine ⟨?_, ?_, ?_, ?_⟩
  · exact (c9_doc_comment_formatting (fun _ c _ => c) ⟨[], 0, 0, 1⟩ (some "  ") false).2.1
      "  " rfl rfl
  · exact (c9_doc_comment_formatting (fun _ c _ => c) ⟨[], 0, 0, 1⟩ none false).1 rfl
  · exact ((c9_doc_comment_formatting (fun _ c _ => c) ⟨[], 0, 0, 1⟩ (some "hi") false).2.2.1
      "hi" rfl (by decide) rfl).1
  · exact ((c9_doc_comment_formatting (fun _ c _ => c) ⟨[], 0, 0, 1⟩ (some "a\nb") false).2.2.2
      "a\nb" rfl (by decide) rfl).1

/-- Claim C6 counterexample: an invocation of the enum emitter with the
non-null enclosing scope `""` does not fail — the source guards the nested-enum
raise with Python truthiness, so the empty string passes through and the
emitter returns normal output. -/
theorem c6_counterexample :
    generateEnum (fun _ _ _ => none) ⟨[], 5, 0, 0⟩ ⟨"Color", []⟩ (some "") =
      Except.ok "pass\n\n" := rfl

/-- Claim C6 (amended): invoking the enum emitter with a non-null, non-empty
enclosing scope — as happens for every nested enum declaration, whose scope is
the enclosing message's dotted name — fails with the generation error naming
the scoped enum; and a per-file generation failure makes the package assembler
abort with an error, so no output records are produced for that run. -/
theorem c6_nested_enum_rejection :
    (∀ (translate : LocationContext → Option String → Bool → Option String)
        (ctx : LocationContext) (descriptor : EnumDescriptorProto) (s : String),
      s ≠ "" →
      generateEnum translate ctx descriptor (some s) =
        Except.error (" [ ENUM  ] " ++ s ++ "." ++ descriptor.name ++
          ": Nested enums not currently supported"))
    ∧ (∀ (options : GeneratorOptions)
        (generateFile : FileDescriptorProto → Except String String)
        (apiPackage : String) (files : List FileDescriptorProto)
        (fd : FileDescriptorProto) (e : String),
      fd ∈ files → generateFile fd = Except.error e →
      isErr (generatePackage options generateFile apiPackage files) = true) := by
  constructor
  · intro translate ctx descriptor s hs
    have ht : optionStrTruthy (some s) = true := by
      simp [optionStrTruthy, hs]
    simp [generateEnum, ht]
  · intro options generateFile apiPackage files fd e hmem herr
    have hl := generatePackageLoop_err options.flat_pack
      (packagePathComponents apiPackage) generateFile (!files.isEmpty) files fd e hmem herr
      [] ""
    cases hloop : generatePackageLoop options.flat_pack (packagePathComponents apiPackage)
        generateFile (!files.isEmpty) files [] "" with
    | error e2 => simp [generatePackage, hloop, isErr]
    | ok r => rw [hloop] at hl; simp [isErr] at hl

/-- Witness for C6 at a concrete nested enum: scope `Outer` makes the emitter
fail, and a package run whose only file fails yields no output records. -/
theorem c6_witness :
    generateEnum (fun _ _ _ => none) ⟨[], 5, 0, 0⟩ ⟨"Color", []⟩ (some "Outer") =
      Except.error " [ ENUM  ] Outer.Color: Nested enums not currently supported" ∧
    isErr (generatePackage ⟨false, none⟩ (fun _ => Except.error "boom") "p"
      [⟨"f1.proto", "p", [], []⟩]) = true :=
  ⟨(c6_nested_enum_rejection.1 (fun _ _ _ => none) ⟨[], 5, 0, 0⟩ ⟨"Color", []⟩ "Outer"
      (by decide)).trans (by rfl),
   c6_nested_enum_rejection.2 ⟨false, none⟩ (fun _ => Except.error "boom") "p"
      [⟨"f1.proto", "p", [], []⟩] ⟨"f1.proto", "p", [], []⟩ "boom" (by simp) rfl⟩

/-- Claim C1: with no package filter, or when the current package equals the
filter or is a descendant of it, `generate_package` returns its full normal
output; when the filter is a strict descendant of the current package it
returns exactly one empty `__init__` placeholder named for the current package;
in every other case it returns the empty list. -/
theorem c1_package_filter (flatPack : Bool)
    (generateFile : FileDescriptorProto → Except String String)
    (apiPackage packageFilter : String) (files : List FileDescriptorProto) :
    ((apiPackage = packageFilter ∨ strStartsWith apiPackage (packageFilter ++ ".") = true) →
      generatePackage ⟨flatPack, some packageFilter⟩ generateFile apiPackage files =
        generatePackage ⟨flatPack, none⟩ generateFile apiPackage files)
    ∧ (apiPackage ≠ packageFilter →
      strStartsWith apiPackage (packageFilter ++ ".") = false →
      strStartsWith packageFilter (apiPackage ++ ".") = true →
      (∀ fd ∈ files, isErr (generateFile fd) = false) →
      generatePackage ⟨flatPack, some packageFilter⟩ generateFile apiPackage files =
        Except.ok [⟨renderPath (packagePathComponents apiPackage ++ ["__init__.py"]), ""⟩])
    ∧ (apiPackage ≠ packageFilter →
      strStartsWith apiPackage (packageFilter ++ ".") = false →
      strStartsWith packageFilter (apiPackage ++ ".") = false →
      (∀ fd ∈ files, isErr (generateFile fd) = false) →
      generatePackage ⟨flatPack, some packageFilter⟩ generateFile apiPackage files =
        Except.ok []) := by
  refine ⟨?_, ?_, ?_⟩
  · intro h
    cases hloop : generatePackageLoop flatPack (packagePathComponents apiPackage)
        generateFile (!files.isEmpty) files [] "" with
    | error e => simp [generatePackage, hloop]
    | ok r =>
      cases h with
      | inl heq => subst heq; simp [generatePackage, hloop]
      | inr hdesc => simp [generatePackage, hloop, hdesc]
  · intro hne hup hdown hok
    obtain ⟨r, hloop⟩ := generatePackageLoop_ok flatPack (packagePathComponents apiPackage)
      generateFile (!files.isEmpty) files hok [] ""
    simp [generatePackage, hloop, hne, hup, hdown]
  · intro hne hup hdown hok
    obtain ⟨r, hloop⟩ := generatePackageLoop_ok flatPack (packagePathComponents apiPackage)
      generateFile (!files.isEmpty) files hok [] ""
    simp [generatePackage, hloop, hne, hup, hdown]

/-- Witness for C1 on the spec's own examples: filter `a` with package `a.b`
emits the full normal output, filter `a.b` with package `a` emits exactly the
empty placeholder `a/__init__.py`, and filter `x.y` with package `a.b` emits
nothing. -/
theorem c1_witness :
    generatePackage ⟨false, some "a"⟩ (fun _ => Except.ok "") "a.b" [] =
      generatePackage ⟨false, none⟩ (fun _ => Except.ok "") "a.b" [] ∧
    generatePackage ⟨false, some "a.b"⟩ (fun _ => Except.ok "") "a" [] =
      Except.ok [⟨"a/__init__.py", ""⟩] ∧
    generatePackage ⟨false, some "x.y"⟩ (fun _ => Except.ok "") "a.b" [] = Except.ok [] :=
  ⟨(c1_package_filter false (fun _ => Except.ok "") "a.b" "a" []).1 (Or.inr rfl),
   (c1_package_filter false (fun _ => Except.ok "") "a" "a.b" []).2.1 (by decide) rfl rfl
      (fun fd hfd => by cases hfd),
   (c1_package_filter false (fun _ => Except.ok "") "a.b" "x.y" []).2.2 (by decide) rfl rfl
      (fun fd hfd => by cases hfd)⟩

/-- Claim C2 counterexample: in flat-pack mode three input files yield three
output records, not one; the later records carry the empty path, which the
protoc host treats as appending their content to the previous record's file. -/
theorem c2_counterexample :
    (generatePackage ⟨true, none⟩ (fun _ => Except.ok "") "p"
      [⟨"f1.proto", "p", [], []⟩, ⟨"f2.proto", "p", [], []⟩,
       ⟨"f3.proto", "p", [], []⟩]).map List.length = Except.ok 3 ∧
    (generatePackage ⟨true, none⟩ (fun _ => Except.ok "") "p"
      [⟨"f1.proto", "p", [], []⟩, ⟨"f2.proto", "p", [], []⟩,
       ⟨"f3.proto", "p", [], []⟩]).map List.length ≠ Except.ok 1 :=
  ⟨rfl, by decide⟩

/-- Claim C2 (amended): with three input files and no package filter, flat-pack
mode returns exactly three output records — the first named with the package's
module path and holding the header plus the first module body, the later two
with the empty path that appends their content to it, so one named output file
— while non-flat-pack mode returns exactly four records: one module file per
input named by the input file stem under the package path, plus the package
`__init__` manifest. -/
theorem c2_flat_pack_output_records
    (apiPackage : String) (generateFile : FileDescriptorProto → Except String String)
    (f1 f2 f3 : FileDescriptorProto) (m1 m2 m3 : String) :
    generateFile f1 = Except.ok m1 → generateFile f2 = Except.ok m2 →
    generateFile f3 = Except.ok m3 →
    ((generatePackage ⟨true, none⟩ generateFile apiPackage [f1, f2, f3]).map
        (List.map CodeGenFile.name) =
      Except.ok [renderPath (pathWithSuffix (packagePathComponents apiPackage) ".py"), "", ""]
    ∧ (generatePackage ⟨false, none⟩ generateFile apiPackage [f1, f2, f3]).map
        (List.map CodeGenFile.name) =
      Except.ok
        [renderPath (packagePathComponents apiPackage ++
           [componentWithSuffix (fileStem f1.name) ".py"]),
         renderPath (packagePathComponents apiPackage ++
           [componentWithSuffix (fileStem f2.name) ".py"]),
         renderPath (packagePathComponents apiPackage ++
           [componentWithSuffix (fileStem f3.name) ".py"]),
         renderPath (packagePathComponents apiPackage ++ ["__init__.py"])]) := by
  intro h1 h2 h3
  constructor
  · simp [generatePackage, generatePackageLoop, Except.map, h1, h2, h3]
  · simp [generatePackage, generatePackageLoop, Except.map, h1, h2, h3]

/-- Witness for C2 on package `a.b` with three proto files: flat-pack mode
yields records named `a/b.py` and two empty paths, non-flat-pack mode yields
the three module files and the manifest. -/
theorem c2_witness :
    (generatePackage ⟨true, none⟩ (fun _ => Except.ok "x") "a.b"
      [⟨"f1.proto", "a.b", [], []⟩, ⟨"f2.proto", "a.b", [], []⟩,
       ⟨"f3.proto", "a.b", [], []⟩]).map (List.map CodeGenFile.name) =
      Except.ok ["a/b.py", "", ""] ∧
    (generatePackage ⟨false, none⟩ (fun _ => Except.ok "x") "a.b"
      [⟨"f1.proto", "a.b", [], []⟩, ⟨"f2.proto", "a.b", [], []⟩,
       ⟨"f3.proto", "a.b", [], []⟩]).map (List.map CodeGenFile.name) =
      Except.ok ["a/b/f1.py", "a/b/f2.py", "a/b/f3.py", "a/b/__init__.py"] := by
  have h := c2_flat_pack_output_records "a.b" (fun _ => Except.ok "x")
    ⟨"f1.proto", "a.b", [], []⟩ ⟨"f2.proto", "a.b", [], []⟩ ⟨"f3.proto", "a.b", [], []⟩
    "x" "x" "x" rfl rfl rfl
  exact ⟨h.1.trans (by rfl), h.2.trans (by rfl)⟩
